import Mathlib

/-! ## OpenAssetIO C bridge: `CManagerInterface` and `throwIfError`

A shallow embedding of `src/openassetio-core-c/private/managerAPI/CManagerInterface.cpp`
and of the error translator exercised by `tests/openassetio-core-c/private/errorsTest.cpp`.

Conventions of the embedding

* A C `char` is a `Char`; `Str` (`std::string`) is a list of them.
* `size_t` values are `Nat`, `int` values are `Int`; no arithmetic on them can overflow in the
  code embedded here (the only operations are comparisons with zero and copies).
* Memory is a total map from pointers to bytes.  A pointer is a storage block together with an
  offset; the two local arrays of a method call are blocks of their own.
* The suite entries are code of an independently compiled plugin.  They receive the two views by
  address, so they are functions that return the views as they leave them, together with the
  memory and the plugin's private state.
* Every call the adapter makes through the function table is recorded in a trace.
-/

namespace openassetio

/-! ## Data model -/

/-- The type `openassetio::Str`, an owned `std::string`. -/
abbrev Str := List Char

/-- Storage objects a pointer can point into.  `null` holds no object; `errorMessageBuffer` and
`outBuffer` are the local arrays of the adapter method that is running; `foreign` blocks are
storage owned by the plugin or by other callers. -/
inductive Block where
  | null
  | errorMessageBuffer
  | outBuffer
  | foreign (id : Nat)
  deriving DecidableEq, Repr

/-- A `char*`. -/
structure Ptr where
  block : Block
  offset : Nat
  deriving DecidableEq, Repr

/-- The null pointer. -/
def Ptr.nullptr : Ptr := ⟨Block.null, 0⟩

/-- Pointer arithmetic `p + i`. -/
def Ptr.add (p : Ptr) (i : Nat) : Ptr := ⟨p.block, p.offset + i⟩

/-- Contents of memory. -/
abbrev Memory := Ptr → Char

/-- Modelled from the spec: the C struct `StringView` (header `openassetio/c/StringView.h`, not
among the sources), three fields in the fixed order capacity, buffer pointer, usedSize; the order
is the one of the aggregate initialisers in `CManagerInterface.cpp` and `errorsTest.cpp`. -/
structure StringView where
  capacity : Nat
  buffer : Ptr
  usedSize : Nat
  deriving DecidableEq, Repr

/-- Value-initialised view `StringView{}`: no buffer, zero capacity, zero usedSize. -/
def StringView.zero : StringView := ⟨0, Ptr.nullptr, 0⟩

/-- Modelled from the spec: the opaque handle type `managerAPI_ManagerInterface_h` (C header not
among the sources); the adapter never interprets it. -/
abbrev managerAPI_ManagerInterface_h := Nat

/-- What lies outside the adapter: memory and the private state of the plugin. -/
structure Store (σ : Type) where
  memory : Memory
  plugin : σ

/-- Result of a string-valued suite entry: the status code, the two views as the entry left them,
and the store. -/
structure Outcome (σ : Type) where
  code : Int
  errorMessage : StringView
  out : StringView
  store : Store σ

/-- Modelled from the spec: the function table `managerAPI_ManagerInterface_s` (C header not among
the sources).  Every string-valued entry has the shape
`(errorMessage*, out*, handle) -> status code`; `dtor` takes the handle only. -/
structure managerAPI_ManagerInterface_s (σ : Type) where
  dtor : managerAPI_ManagerInterface_h → Store σ → Store σ
  identifier : StringView → StringView → managerAPI_ManagerInterface_h → Store σ → Outcome σ
  displayName : StringView → StringView → managerAPI_ManagerInterface_h → Store σ → Outcome σ

/-- One call through the function table, with the arguments as passed. -/
inductive Invocation where
  | dtor (handle : managerAPI_ManagerInterface_h)
  | identifier (errorMessage out : StringView) (handle : managerAPI_ManagerInterface_h)
  | displayName (errorMessage out : StringView) (handle : managerAPI_ManagerInterface_h)
  deriving DecidableEq, Repr

/-- State of the world as the adapter's callers see it: the store and the calls made so far
through the function table. -/
structure World (σ : Type) where
  store : Store σ
  trace : List Invocation

/-- Contents of the two local arrays when a method is entered.  The arrays are not initialised, so
the contents are whatever the caller of the method supplies here. -/
structure Frame where
  errorMessageBuffer : Nat → Char
  outBuffer : Nat → Char

/-- Memory once the local arrays of a method call have come into existence. -/
def Memory.enter (m : Memory) (frame : Frame) : Memory := fun p =>
  match p.block with
  | Block.errorMessageBuffer => frame.errorMessageBuffer p.offset
  | Block.outBuffer => frame.outBuffer p.offset
  | _ => m p

/-- The store once the local arrays of a method call have come into existence. -/
def Store.enter {σ : Type} (s : Store σ) (frame : Frame) : Store σ :=
  ⟨s.memory.enter frame, s.plugin⟩

/-! ## Strings -/

/-- Addresses `p, p + 1, ..., p + (n - 1)`. -/
def Ptr.span (p : Ptr) (n : Nat) : List Ptr := (List.range n).map p.add

/-- The constructor `Str{buffer, size}`: copies `size` bytes starting at `buffer`.  It performs no
check against any capacity.  The copy is modelled on readable storage: for a null or unreadable
`buffer` with `size > 0`, where the C++ constructor throws or faults, it yields the bytes the
memory map holds, so statements about a returned string say which storage the buffer points at. -/
def Str.fromBuffer (m : Memory) (buffer : Ptr) (size : Nat) : Str := (buffer.span size).map m

/-- The function `std::to_string(int)`: decimal rendering, with a leading minus sign for negative values. -/
def to_string (value : Int) : Str :=
  match value with
  | Int.ofNat n => Nat.toDigits 10 n
  | Int.negSucc n => '-' :: Nat.toDigits 10 (n + 1)

/-! ## Error translator -/

/-- Modelled from the spec: the status code `kOK` (header `openassetio/c/errors.h`, not among the
sources); zero means success. -/
def kOK : Int := 0

/-- The exception `std::runtime_error`; `what` is its description. -/
structure RuntimeError where
  what : Str
  deriving DecidableEq, Repr

/-- Modelled from the spec: `throwIfError` (private header `errors.hpp`, not among the sources).
For `kOK` it returns normally and does not look at the message.  For any other code it throws a
`std::runtime_error` described by the decimal code, a colon and a blank, and the message text
`buffer[0..usedSize]`. -/
def throwIfError (code : Int) (message : StringView) (m : Memory) : Except RuntimeError Unit :=
  if code = kOK then Except.ok ()
  else Except.error
    ⟨to_string code ++ [':', ' '] ++ Str.fromBuffer m message.buffer message.usedSize⟩

/-! ## The adapter -/

namespace managerAPI

/-- The constant `constexpr size_t kStringBufferSize = 500;`. -/
def kStringBufferSize : Nat := 500

/-- The class `CManagerInterface`: a handle and the suite bound to it. -/
structure CManagerInterface (σ : Type) where
  handle_ : managerAPI_ManagerInterface_h
  suite_ : managerAPI_ManagerInterface_s σ

/-- The destructor `~CManagerInterface() { suite_.dtor(handle_); }`. -/
def CManagerInterface.destructor {σ : Type} (self : CManagerInterface σ) (w : World σ) :
    World σ :=
  ⟨self.suite_.dtor self.handle_ w.store, w.trace ++ [Invocation.dtor self.handle_]⟩

/-- The method `CManagerInterface::identifier() const`. -/
def CManagerInterface.identifier {σ : Type} (self : CManagerInterface σ) (frame : Frame)
    (w : World σ) : Except RuntimeError Str × World σ :=
  -- char errorMessageBuffer[kStringBufferSize]; char outBuffer[kStringBufferSize];
  let store := w.store.enter frame
  let errorMessage : StringView := ⟨kStringBufferSize, ⟨Block.errorMessageBuffer, 0⟩, 0⟩
  let out : StringView := ⟨kStringBufferSize, ⟨Block.outBuffer, 0⟩, 0⟩
  -- Execute corresponding suite function.
  let trace := w.trace ++ [Invocation.identifier errorMessage out self.handle_]
  let r := self.suite_.identifier errorMessage out self.handle_ store
  let errorCode := r.code
  -- Convert error code/message to exception.
  match throwIfError errorCode r.errorMessage r.store.memory with
  | Except.error e => (Except.error e, ⟨r.store, trace⟩)
  | Except.ok () =>
    (Except.ok (Str.fromBuffer r.store.memory r.out.buffer r.out.usedSize), ⟨r.store, trace⟩)

/-- The method `CManagerInterface::displayName() const`. -/
def CManagerInterface.displayName {σ : Type} (self : CManagerInterface σ) (frame : Frame)
    (w : World σ) : Except RuntimeError Str × World σ :=
  -- char errorMessageBuffer[kStringBufferSize]; char outBuffer[kStringBufferSize];
  let store := w.store.enter frame
  let errorMessage : StringView := ⟨kStringBufferSize, ⟨Block.errorMessageBuffer, 0⟩, 0⟩
  let out : StringView := ⟨kStringBufferSize, ⟨Block.outBuffer, 0⟩, 0⟩
  -- Execute corresponding suite function.
  let trace := w.trace ++ [Invocation.displayName errorMessage out self.handle_]
  let r := self.suite_.displayName errorMessage out self.handle_ store
  let errorCode := r.code
  -- Convert error code/message to exception.
  match throwIfError errorCode r.errorMessage r.store.memory with
  | Except.error e => (Except.error e, ⟨r.store, trace⟩)
  | Except.ok () =>
    (Except.ok (Str.fromBuffer r.store.memory r.out.buffer r.out.usedSize), ⟨r.store, trace⟩)

end managerAPI

end openassetio

/-! ## Fixtures used to evaluate the code on concrete inputs -/

namespace openassetio

/-- Memory after copying the bytes of `s` to `dst`, as `memcpy(dst, s.data(), s.size())`. -/
def Memory.write (m : Memory) (dst : Ptr) (s : Str) : Memory := fun p =>
  if p.block = dst.block ∧ dst.offset ≤ p.offset ∧ p.offset < dst.offset + s.length then
    s.getD (p.offset - dst.offset) (m p)
  else m p

/-- Memory filled with blanks. -/
def Memory.blank : Memory := fun _ => ' '

/-- Local arrays filled with the byte `c`. -/
def Frame.filled (c : Char) : Frame := ⟨fun _ => c, fun _ => c⟩

/-- Value of a decimal digit character. -/
def digitValue (c : Char) : Nat := c.toNat - 48

/-- Value of a string of decimal digits. -/
def decimalValue (s : Str) : Nat := s.foldl (fun a c => 10 * a + digitValue c) 0

/-- Reads back a decimal rendering with an optional leading minus sign. -/
def parseInt (s : Str) : Int :=
  if s.head? = some '-' then -((decimalValue s.tail : Nat) : Int) else ((decimalValue s : Nat) : Int)

/-- The code a caller reads back from the description of an error: the number before the first
colon. -/
def codeOf (what : Str) : Int := parseInt (what.takeWhile (fun c => c != ':'))

/-! ## Vocabulary for stating properties of both methods at once -/

namespace managerAPI

/-- The two methods of the adapter. -/
inductive Method where
  | identifier
  | displayName
  deriving DecidableEq, Repr

/-- The adapter method named by `k`. -/
def Method.run {σ : Type} (k : Method) (self : CManagerInterface σ) :
    Frame → World σ → Except RuntimeError Str × World σ :=
  match k with
  | Method.identifier => self.identifier
  | Method.displayName => self.displayName

/-- The suite entry that corresponds to the method `k`. -/
def Method.entry {σ : Type} (k : Method) (suite : managerAPI_ManagerInterface_s σ) :
    StringView → StringView → managerAPI_ManagerInterface_h → Store σ → Outcome σ :=
  match k with
  | Method.identifier => suite.identifier
  | Method.displayName => suite.displayName

/-- The trace record of a call of the suite entry that corresponds to the method `k`. -/
def Method.invocation (k : Method) :
    StringView → StringView → managerAPI_ManagerInterface_h → Invocation :=
  match k with
  | Method.identifier => Invocation.identifier
  | Method.displayName => Invocation.displayName

/-- What the suite entry for `k` returns and leaves behind when it is called with two fresh views
of capacity 500 over the local arrays, the handle of `self`, and the store in which the local
arrays hold the contents given by `frame`. -/
def Method.outcome {σ : Type} (k : Method) (self : CManagerInterface σ) (frame : Frame)
    (w : World σ) : Outcome σ :=
  k.entry self.suite_ ⟨500, ⟨Block.errorMessageBuffer, 0⟩, 0⟩ ⟨500, ⟨Block.outBuffer, 0⟩, 0⟩
    self.handle_ (w.store.enter frame)

/-- The value a method call has to produce from what the suite entry returned and left behind:
the text of the result view when the code is zero, otherwise the error described by the code and
the text of the error-message view. -/
def resultOf {σ : Type} (r : Outcome σ) : Except RuntimeError Str :=
  if r.code = 0 then
    Except.ok (Str.fromBuffer r.store.memory r.out.buffer r.out.usedSize)
  else
    Except.error ⟨to_string r.code ++ [':', ' '] ++
      Str.fromBuffer r.store.memory r.errorMessage.buffer r.errorMessage.usedSize⟩

/-- One method call made during the lifetime of an adapter. -/
structure Use where
  method : Method
  frame : Frame

/-- The world after the method calls `uses` have been made on `self`, in order.  The values the
calls return or throw go to the caller and are not kept here. -/
def CManagerInterface.runAll {σ : Type} (self : CManagerInterface σ) (uses : List Use)
    (w : World σ) : World σ :=
  uses.foldl (fun w u => (u.method.run self u.frame w).2) w

/-- Whether a trace record is a call of the destructor entry. -/
def isDtor (c : Invocation) : Bool :=
  match c with
  | Invocation.dtor _ => true
  | _ => false

end managerAPI

/-! ## Plugins used to evaluate the adapter on concrete inputs -/

/-- What a scripted plugin does in one call: the code it returns, the text it copies into the
error-message buffer (setting that view's usedSize to the length of the text), the text it copies
into the result buffer, and the value it stores in the result view's usedSize. -/
structure Response where
  code : Int
  message : Str
  value : Str
  usedSize : Nat

/-- A string-valued entry of the scripted plugin.  Its private state is the list of responses
still to come; each call consumes the first one. -/
def scriptedEntry (errorMessage out : StringView) (_handle : managerAPI_ManagerInterface_h)
    (s : Store (List Response)) : Outcome (List Response) :=
  match s.plugin with
  | [] => ⟨0, errorMessage, out, s⟩
  | r :: rest =>
    ⟨r.code, ⟨errorMessage.capacity, errorMessage.buffer, r.message.length⟩,
      ⟨out.capacity, out.buffer, r.usedSize⟩,
      ⟨(s.memory.write errorMessage.buffer r.message).write out.buffer r.value, rest⟩⟩

/-- The scripted plugin: both string-valued entries follow the script, `dtor` does nothing. -/
def scriptedSuite : managerAPI_ManagerInterface_s (List Response) :=
  ⟨fun _ s => s, scriptedEntry, scriptedEntry⟩

/-- An entry that points the result view at storage of the plugin (block `foreign 0`, which the
plugin keeps at least 501 bytes long) and reports 501 bytes as used; it leaves the capacity field
and the memory alone. -/
def repointingEntry (errorMessage out : StringView) (_handle : managerAPI_ManagerInterface_h)
    (s : Store Unit) : Outcome Unit :=
  ⟨0, errorMessage, ⟨out.capacity, ⟨Block.foreign 0, 0⟩, 501⟩, s⟩

/-- A plugin whose string-valued entries are `repointingEntry`. -/
def repointingSuite : managerAPI_ManagerInterface_s Unit :=
  ⟨fun _ s => s, repointingEntry, repointingEntry⟩

/-- A world with blank memory, the given plugin state and no calls made yet. -/
def World.initial {σ : Type} (plugin : σ) : World σ := ⟨⟨Memory.blank, plugin⟩, []⟩

/-- The view the test `errorsTest.cpp` builds over the string `message`:
`{message.size(), message.data(), message.size()}`, the data living in a block of its own. -/
def StringView.over (message : Str) : StringView :=
  ⟨message.length, ⟨Block.foreign 0, 0⟩, message.length⟩

/-- Memory in which the data of the string `message` viewed by `StringView.over` lives. -/
def Memory.holding (message : Str) : Memory := Memory.blank.write ⟨Block.foreign 0, 0⟩ message

/-- The frame in which the two local arrays hold what memory `m` holds at their place: the
arrays are not initialised, and this is what they contain when the stack slots still carry the
bytes of an earlier call. -/
def Frame.left (m : Memory) : Frame :=
  ⟨fun i => m ⟨Block.errorMessageBuffer, i⟩, fun i => m ⟨Block.outBuffer, i⟩⟩

/-- The script of a plugin whose first call writes 500 bytes `c` as its result and whose second
call returns OK and reports 3 bytes as used without writing any. -/
def leakScript (c : Char) : List Response :=
  [⟨0, [], List.replicate 500 c, 500⟩, ⟨0, [], [], 3⟩]

/-- The world after a first call of the method `k` on an adapter of the scripted plugin that
follows `leakScript c`. -/
def afterFirstCall (k : managerAPI.Method) (c : Char) : World (List Response) :=
  (k.run ⟨7, scriptedSuite⟩ (Frame.filled 'u') (World.initial (leakScript c))).2

end openassetio

open openassetio openassetio.managerAPI

/-! ## Lemmas on strings and memory -/

theorem length_span (p : Ptr) (n : Nat) : (p.span n).length = n := by
  simp [Ptr.span]

theorem length_fromBuffer (m : Memory) (p : Ptr) (n : Nat) :
    (Str.fromBuffer m p n).length = n := by
  simp [Str.fromBuffer, Ptr.span]

theorem getElem?_fromBuffer (m : Memory) (p : Ptr) (n i : Nat) (h : i < n) :
    (Str.fromBuffer m p n)[i]? = some (m (p.add i)) := by
  simp [Str.fromBuffer, Ptr.span, List.getElem?_map, List.getElem?_range h]

theorem fromBuffer_zero (m : Memory) (p : Ptr) : Str.fromBuffer m p 0 = [] := by
  simp [Str.fromBuffer, Ptr.span]

theorem fromBuffer_congr (m1 m2 : Memory) (p1 p2 : Ptr) (n : Nat)
    (h : ∀ i, i < n → m1 (p1.add i) = m2 (p2.add i)) :
    Str.fromBuffer m1 p1 n = Str.fromBuffer m2 p2 n := by
  apply List.ext_getElem?
  intro i
  by_cases hi : i < n
  · rw [getElem?_fromBuffer m1 p1 n i hi, getElem?_fromBuffer m2 p2 n i hi, h i hi]
  · have h1 : n ≤ i := Nat.le_of_not_lt hi
    rw [List.getElem?_eq_none (by rw [length_fromBuffer]; exact h1),
      List.getElem?_eq_none (by rw [length_fromBuffer]; exact h1)]

theorem fromBuffer_eq_of_holds (m : Memory) (p : Ptr) (s : Str)
    (h : ∀ i, i < s.length → s[i]? = some (m (p.add i))) :
    Str.fromBuffer m p s.length = s := by
  apply List.ext_getElem?
  intro i
  by_cases hi : i < s.length
  · rw [getElem?_fromBuffer m p _ i hi, h i hi]
  · have h1 : s.length ≤ i := Nat.le_of_not_lt hi
    rw [List.getElem?_eq_none (by rw [length_fromBuffer]; exact h1), List.getElem?_eq_none h1]

/-! ## Lemmas on the decimal rendering -/

theorem digitChar_spec (k : Nat) (h : k < 10) :
    digitValue (Nat.digitChar k) = k ∧ Nat.digitChar k ≠ ':' ∧ Nat.digitChar k ≠ '-' := by
  interval_cases k <;> decide

theorem decimalValue_append_singleton (s : Str) (c : Char) :
    decimalValue (s ++ [c]) = 10 * decimalValue s + digitValue c := by
  simp [decimalValue, List.foldl_append]

theorem toDigitsCore_spec : ∀ (fuel n : Nat) (ds : List Char), n < fuel →
    ∃ pre : List Char, Nat.toDigitsCore 10 fuel n ds = pre ++ ds ∧
      (∀ c ∈ pre, c ≠ ':' ∧ c ≠ '-') ∧ decimalValue pre = n := by
  intro fuel
  induction fuel with
  | zero => intro n ds h; omega
  | succ fuel ih =>
    intro n ds h
    have hd := digitChar_spec (n % 10) (Nat.mod_lt _ (by decide))
    unfold Nat.toDigitsCore
    by_cases h0 : n / 10 = 0
    · refine ⟨[Nat.digitChar (n % 10)], by simp [h0], ?_, ?_⟩
      · intro c hc
        simp only [List.mem_singleton] at hc
        subst hc
        exact hd.2
      · have : decimalValue [Nat.digitChar (n % 10)] = digitValue (Nat.digitChar (n % 10)) := by
          simp [decimalValue]
        rw [this, hd.1]
        omega
    · obtain ⟨pre, hpre, hall, hval⟩ :=
        ih (n / 10) (Nat.digitChar (n % 10) :: ds) (by omega)
      refine ⟨pre ++ [Nat.digitChar (n % 10)], by simp [h0, hpre], ?_, ?_⟩
      · intro c hc
        rcases List.mem_append.1 hc with hc | hc
        · exact hall c hc
        · simp only [List.mem_singleton] at hc
          subst hc
          exact hd.2
      · rw [decimalValue_append_singleton, hval, hd.1]
        omega

theorem toDigits_spec (n : Nat) :
    (∀ c ∈ Nat.toDigits 10 n, c ≠ ':' ∧ c ≠ '-') ∧ decimalValue (Nat.toDigits 10 n) = n := by
  obtain ⟨pre, hpre, hall, hval⟩ := toDigitsCore_spec (n + 1) n [] (Nat.lt_succ_self n)
  have h : Nat.toDigits 10 n = pre := by
    simp [Nat.toDigits, hpre]
  rw [h]
  exact ⟨hall, hval⟩

theorem to_string_no_colon (c : Int) : ∀ x ∈ to_string c, x ≠ ':' := by
  intro x hx
  cases c with
  | ofNat n => exact ((toDigits_spec n).1 x hx).1
  | negSucc n =>
    simp only [to_string, List.mem_cons] at hx
    rcases hx with hx | hx
    · subst hx; decide
    · exact ((toDigits_spec (n + 1)).1 x hx).1

theorem head?_toDigits_ne_minus (n : Nat) : (Nat.toDigits 10 n).head? ≠ some '-' := by
  intro h
  have hm : '-' ∈ Nat.toDigits 10 n := List.mem_of_mem_head? h
  exact ((toDigits_spec n).1 _ hm).2 rfl

theorem parseInt_to_string (c : Int) : parseInt (to_string c) = c := by
  cases c with
  | ofNat n =>
    simp only [to_string, parseInt, if_neg (head?_toDigits_ne_minus n), (toDigits_spec n).2]
    rfl
  | negSucc n =>
    simp only [to_string, parseInt, List.head?_cons, List.tail_cons, if_true,
      (toDigits_spec (n + 1)).2]
    rfl

theorem takeWhile_colon (l r : Str) (h : ∀ x ∈ l, x ≠ ':') :
    (l ++ ':' :: r).takeWhile (fun c => c != ':') = l := by
  induction l with
  | nil => simp
  | cons a l ih =>
    have ha : a ≠ ':' := h a (List.mem_cons_self a l)
    have hl : ∀ x ∈ l, x ≠ ':' := fun x hx => h x (List.mem_cons_of_mem a hx)
    simp [List.takeWhile_cons, ha, ih hl]

theorem codeOf_description (c : Int) (msg : Str) :
    codeOf (to_string c ++ [':', ' '] ++ msg) = c := by
  have h : to_string c ++ [':', ' '] ++ msg = to_string c ++ ':' :: (' ' :: msg) := by simp
  rw [codeOf, h, takeWhile_colon _ _ (to_string_no_colon c), parseInt_to_string]

/-! ## Lemmas on the adapter -/

theorem run_result {σ : Type} (k : Method) (self : CManagerInterface σ) (frame : Frame)
    (w : World σ) : (k.run self frame w).1 = resultOf (k.outcome self frame w) := by
  cases k <;>
    simp only [Method.run, Method.outcome, Method.entry, CManagerInterface.identifier,
      CManagerInterface.displayName, resultOf, throwIfError, kOK, kStringBufferSize] <;>
    split <;> rename_i h <;> split at h <;> simp_all

theorem run_trace {σ : Type} (k : Method) (self : CManagerInterface σ) (frame : Frame)
    (w : World σ) :
    (k.run self frame w).2.trace = w.trace ++
      [k.invocation ⟨500, ⟨Block.errorMessageBuffer, 0⟩, 0⟩ ⟨500, ⟨Block.outBuffer, 0⟩, 0⟩
        self.handle_] := by
  cases k <;>
    simp only [Method.run, Method.invocation, CManagerInterface.identifier,
      CManagerInterface.displayName, kStringBufferSize] <;>
    split <;> rfl

theorem run_store {σ : Type} (k : Method) (self : CManagerInterface σ) (frame : Frame)
    (w : World σ) : (k.run self frame w).2.store = (k.outcome self frame w).store := by
  cases k <;>
    simp only [Method.run, Method.outcome, Method.entry, CManagerInterface.identifier,
      CManagerInterface.displayName, kStringBufferSize] <;>
    split <;> rfl

theorem resultOf_ok {σ : Type} (r : Outcome σ) (h : r.code = 0) :
    resultOf r = Except.ok (Str.fromBuffer r.store.memory r.out.buffer r.out.usedSize) := by
  simp [resultOf, h]

theorem resultOf_error {σ : Type} (r : Outcome σ) (h : r.code ≠ 0) :
    resultOf r = Except.error ⟨to_string r.code ++ [':', ' '] ++
      Str.fromBuffer r.store.memory r.errorMessage.buffer r.errorMessage.usedSize⟩ := by
  simp [resultOf, h]

theorem isDtor_invocation (k : Method) (e o : StringView) (h : managerAPI_ManagerInterface_h) :
    isDtor (k.invocation e o h) = false := by
  cases k <;> rfl

theorem runAll_trace {σ : Type} (self : CManagerInterface σ) (uses : List Use) :
    ∀ w : World σ, (self.runAll uses w).trace = w.trace ++ uses.map (fun u =>
      u.method.invocation ⟨500, ⟨Block.errorMessageBuffer, 0⟩, 0⟩ ⟨500, ⟨Block.outBuffer, 0⟩, 0⟩
        self.handle_) := by
  induction uses with
  | nil => intro w; simp [CManagerInterface.runAll]
  | cons u us ih =>
    intro w
    have h := ih (u.method.run self u.frame w).2
    simp only [CManagerInterface.runAll, List.foldl_cons] at h ⊢
    rw [h, run_trace]
    simp

theorem mem_span (p q : Ptr) (n : Nat) (h : q ∈ p.span n) :
    q.block = p.block ∧ p.offset ≤ q.offset ∧ q.offset < p.offset + n := by
  simp only [Ptr.span, List.mem_map, List.mem_range] at h
  obtain ⟨i, hi, rfl⟩ := h
  exact ⟨rfl, Nat.le_add_right _ _, Nat.add_lt_add_left hi _⟩

/-! ## The error translator -/

/-- C3: for every message view, and in particular for the zero-initialised view with no buffer,
zero capacity and zero usedSize, `throwIfError(kOK, message)` returns normally; the outcome is the
same for any two message views and any two memories. -/
theorem throwIfError_kOK_returns (message : StringView) (m : Memory) :
    throwIfError kOK message m = Except.ok () ∧
    throwIfError kOK StringView.zero m = Except.ok () ∧
    ∀ (other : StringView) (m2 : Memory),
      throwIfError kOK message m = throwIfError kOK other m2 := by
  refine ⟨?_, ?_, ?_⟩ <;> simp [throwIfError]

/-- C2: for every nonzero code `c` and every message string `msg` (the empty one included), if the
message view has usedSize equal to the length of `msg` and its buffer holds the bytes of `msg`,
then `throwIfError(c, view)` throws the error whose description is the decimal rendering of `c`,
followed by a colon and a blank, followed by `msg`. -/
theorem throwIfError_nonzero_description (c : Int) (hc : c ≠ 0) (msg : Str)
    (message : StringView) (m : Memory)
    (hsize : message.usedSize = msg.length)
    (htext : ∀ i, i < msg.length → msg[i]? = some (m (message.buffer.add i))) :
    throwIfError c message m = Except.error ⟨to_string c ++ [':', ' '] ++ msg⟩ := by
  have h : Str.fromBuffer m message.buffer message.usedSize = msg := by
    rw [hsize]
    exact fromBuffer_eq_of_holds m message.buffer msg htext
  simp [throwIfError, kOK, hc, h]

/-- Witness of C2, the case of `errorsTest.cpp`: code 123 and message "some error" give the
description "123: some error"; with the empty message the description is "123: ". -/
theorem throwIfError_nonzero_description_witness :
    throwIfError 123 (StringView.over "some error".toList) (Memory.holding "some error".toList)
      = Except.error ⟨"123: some error".toList⟩ ∧
    throwIfError 123 (StringView.over []) (Memory.holding []) = Except.error ⟨"123: ".toList⟩ :=
  ⟨throwIfError_nonzero_description 123 (by decide) "some error".toList
      (StringView.over "some error".toList) (Memory.holding "some error".toList) rfl
      (by decide),
   throwIfError_nonzero_description 123 (by decide) [] (StringView.over []) (Memory.holding [])
      rfl (by decide)⟩

/-- C6: translating two nonzero codes (with any two messages) into the same error value forces the
codes to be equal, and the code of an error can be read back from its description. -/
theorem throwIfError_code_lossless (c1 c2 : Int) (h1 : c1 ≠ 0) (h2 : c2 ≠ 0)
    (v1 v2 : StringView) (m1 m2 : Memory)
    (h : throwIfError c1 v1 m1 = throwIfError c2 v2 m2) :
    c1 = c2 ∧ ∀ e, throwIfError c1 v1 m1 = Except.error e → codeOf e.what = c1 := by
  have key : ∀ (c : Int) (v : StringView) (m : Memory) (e : RuntimeError), c ≠ 0 →
      throwIfError c v m = Except.error e → codeOf e.what = c := by
    intro c v m e hc he
    simp only [throwIfError, kOK, if_neg hc, Except.error.injEq] at he
    rw [← he]
    exact codeOf_description c _
  refine ⟨?_, fun e he => key c1 v1 m1 e h1 he⟩
  have e1 : throwIfError c1 v1 m1 = Except.error
      ⟨to_string c1 ++ [':', ' '] ++ Str.fromBuffer m1 v1.buffer v1.usedSize⟩ := by
    simp [throwIfError, kOK, h1]
  rw [← key c1 v1 m1 _ h1 e1, ← key c2 v2 m2 _ h2 (h ▸ e1)]

/-- Witness of C6: two views over different memories that carry the same text "ab" with the code
123 give the same error, and the code read back from it is 123. -/
theorem throwIfError_code_lossless_witness :
    throwIfError 123 (StringView.over "ab".toList) (Memory.holding "ab".toList)
      = throwIfError 123 ⟨5, ⟨Block.foreign 0, 0⟩, 2⟩ (Memory.holding "abc".toList) ∧
    ((123 : Int) = 123 ∧ ∀ e,
      throwIfError 123 (StringView.over "ab".toList) (Memory.holding "ab".toList)
        = Except.error e → codeOf e.what = 123) :=
  ⟨rfl, throwIfError_code_lossless 123 123 (by decide) (by decide) (StringView.over "ab".toList)
    ⟨5, ⟨Block.foreign 0, 0⟩, 2⟩ (Memory.holding "ab".toList) (Memory.holding "abc".toList) rfl⟩

/-! ## The adapter methods -/

/-- C1: when the suite entry for `identifier()` (resp. `displayName()`) returns OK, leaves the
result view's buffer pointing at the local array the adapter passed and leaves usedSize = L in
it, with L at most the capacity 500, the method returns without error a string of L bytes whose
i-th byte is the i-th byte of that buffer; every byte copied lies inside the 500-byte array. -/
theorem method_returns_written_bytes {σ : Type} (k : Method) (self : CManagerInterface σ)
    (frame : Frame) (w : World σ) (L : Nat)
    (hcode : (k.outcome self frame w).code = kOK)
    (hbuf : (k.outcome self frame w).out.buffer = ⟨Block.outBuffer, 0⟩)
    (hused : (k.outcome self frame w).out.usedSize = L)
    (hL : L ≤ 500) :
    ∃ s : Str, (k.run self frame w).1 = Except.ok s ∧ s.length = L ∧
      (∀ i, i < L → s[i]? = some
        ((k.outcome self frame w).store.memory ((k.outcome self frame w).out.buffer.add i))) ∧
      ∀ p ∈ (k.outcome self frame w).out.buffer.span L,
        p.block = Block.outBuffer ∧ p.offset < 500 := by
  refine ⟨Str.fromBuffer (k.outcome self frame w).store.memory
    (k.outcome self frame w).out.buffer L, ?_, ?_, ?_, ?_⟩
  · rw [run_result, resultOf_ok _ hcode, hused]
  · exact length_fromBuffer _ _ _
  · intro i hi
    exact getElem?_fromBuffer _ _ _ i hi
  · intro p hp
    have h := mem_span _ _ _ hp
    rw [hbuf] at h
    exact ⟨h.1, by have := h.2.2; simp only [Nat.zero_add] at this; omega⟩

/-- Witness of C1: a plugin that writes "abc" into the buffer it was given and returns OK, for
both methods. -/
theorem method_returns_written_bytes_witness :
    (∃ s : Str, (CManagerInterface.identifier ⟨7, scriptedSuite⟩ (Frame.filled 'u')
        (World.initial [⟨0, [], "abc".toList, 3⟩])).1 = Except.ok s ∧ s.length = 3 ∧
      s[0]? = some 'a' ∧ s[1]? = some 'b' ∧ s[2]? = some 'c') ∧
    (∃ s : Str, (CManagerInterface.displayName ⟨7, scriptedSuite⟩ (Frame.filled 'u')
        (World.initial [⟨0, [], "abc".toList, 3⟩])).1 = Except.ok s ∧ s.length = 3 ∧
      s[0]? = some 'a' ∧ s[1]? = some 'b' ∧ s[2]? = some 'c') := by
  constructor
  · obtain ⟨s, h1, h2, h3, _⟩ := method_returns_written_bytes Method.identifier
      ⟨7, scriptedSuite⟩ (Frame.filled 'u') (World.initial [⟨0, [], "abc".toList, 3⟩]) 3
      rfl rfl rfl (by decide)
    exact ⟨s, h1, h2, h3 0 (by decide), h3 1 (by decide), h3 2 (by decide)⟩
  · obtain ⟨s, h1, h2, h3, _⟩ := method_returns_written_bytes Method.displayName
      ⟨7, scriptedSuite⟩ (Frame.filled 'u') (World.initial [⟨0, [], "abc".toList, 3⟩]) 3
      rfl rfl rfl (by decide)
    exact ⟨s, h1, h2, h3 0 (by decide), h3 1 (by decide), h3 2 (by decide)⟩

/-- C9: when the suite entry returns OK and leaves usedSize = 0 in the result view, the method
returns the empty string and no error, whatever the buffer holds. -/
theorem method_returns_empty_string {σ : Type} (k : Method) (self : CManagerInterface σ)
    (frame : Frame) (w : World σ)
    (hcode : (k.outcome self frame w).code = kOK)
    (hused : (k.outcome self frame w).out.usedSize = 0) :
    (k.run self frame w).1 = Except.ok [] := by
  rw [run_result, resultOf_ok _ hcode, hused, fromBuffer_zero]

/-- Witness of C9: a plugin that copies "abc" into the result buffer but reports usedSize = 0. -/
theorem method_returns_empty_string_witness :
    (CManagerInterface.identifier ⟨7, scriptedSuite⟩ (Frame.filled 'u')
      (World.initial [⟨0, [], "abc".toList, 0⟩])).1 = Except.ok [] ∧
    (CManagerInterface.displayName ⟨7, scriptedSuite⟩ (Frame.filled 'u')
      (World.initial [⟨0, [], "abc".toList, 0⟩])).1 = Except.ok [] :=
  ⟨method_returns_empty_string Method.identifier ⟨7, scriptedSuite⟩ (Frame.filled 'u')
      (World.initial [⟨0, [], "abc".toList, 0⟩]) rfl rfl,
   method_returns_empty_string Method.displayName ⟨7, scriptedSuite⟩ (Frame.filled 'u')
      (World.initial [⟨0, [], "abc".toList, 0⟩]) rfl rfl⟩

/-- C4: when the suite entry returns a nonzero code `c` and leaves a message `msg` of at most 500
bytes in the error-message view, the method returns no string: it fails with the error whose
description is the decimal rendering of `c`, a colon, a blank and `msg`, whatever the entry left
in the result view. -/
theorem method_fails_with_description {σ : Type} (k : Method) (self : CManagerInterface σ)
    (frame : Frame) (w : World σ) (c : Int) (msg : Str)
    (hcode : (k.outcome self frame w).code = c) (hc : c ≠ 0)
    (_hlen : msg.length ≤ kStringBufferSize)
    (hsize : (k.outcome self frame w).errorMessage.usedSize = msg.length)
    (htext : ∀ i, i < msg.length → msg[i]? = some
      ((k.outcome self frame w).store.memory
        ((k.outcome self frame w).errorMessage.buffer.add i))) :
    (k.run self frame w).1 = Except.error ⟨to_string c ++ [':', ' '] ++ msg⟩ ∧
    ∀ s : Str, (k.run self frame w).1 ≠ Except.ok s := by
  have h : (k.run self frame w).1 = Except.error ⟨to_string c ++ [':', ' '] ++ msg⟩ := by
    rw [run_result, resultOf_error _ (by rw [hcode]; exact hc), hcode, hsize,
      fromBuffer_eq_of_holds _ _ msg htext]
  refine ⟨h, ?_⟩
  intro s hs
  rw [h] at hs
  cases hs

/-- Witness of C4: a plugin that returns 123 with the message "some error" after it has also
written "abc" into the result view. -/
theorem method_fails_with_description_witness :
    ((CManagerInterface.identifier ⟨7, scriptedSuite⟩ (Frame.filled 'u')
        (World.initial [⟨123, "some error".toList, "abc".toList, 3⟩])).1
      = Except.error ⟨"123: some error".toList⟩ ∧
     ∀ s : Str, (CManagerInterface.identifier ⟨7, scriptedSuite⟩ (Frame.filled 'u')
        (World.initial [⟨123, "some error".toList, "abc".toList, 3⟩])).1 ≠ Except.ok s) ∧
    ((CManagerInterface.displayName ⟨7, scriptedSuite⟩ (Frame.filled 'u')
        (World.initial [⟨123, "some error".toList, "abc".toList, 3⟩])).1
      = Except.error ⟨"123: some error".toList⟩ ∧
     ∀ s : Str, (CManagerInterface.displayName ⟨7, scriptedSuite⟩ (Frame.filled 'u')
        (World.initial [⟨123, "some error".toList, "abc".toList, 3⟩])).1 ≠ Except.ok s) :=
  ⟨method_fails_with_description Method.identifier ⟨7, scriptedSuite⟩ (Frame.filled 'u')
      (World.initial [⟨123, "some error".toList, "abc".toList, 3⟩]) 123 "some error".toList
      rfl (by decide) (by decide) rfl (by decide),
   method_fails_with_description Method.displayName ⟨7, scriptedSuite⟩ (Frame.filled 'u')
      (World.initial [⟨123, "some error".toList, "abc".toList, 3⟩]) 123 "some error".toList
      rfl (by decide) (by decide) rfl (by decide)⟩

set_option maxRecDepth 100000 in
/-- C7, refuted as stated: a plugin that writes "abc", returns OK and sets the result view's
usedSize to 501 makes both methods return a string of 501 bytes, the last of them read past the
end of the 500-byte local array; a plugin that points the result view at storage of its own and
sets usedSize to 501 makes `identifier()` return 501 bytes none of which comes from the local
array. -/
theorem result_exceeds_capacity :
    (CManagerInterface.identifier ⟨7, scriptedSuite⟩ (Frame.filled 'x')
        (World.initial [⟨0, [], "abc".toList, 501⟩])).1
      = Except.ok ("abc".toList ++ List.replicate 498 'x') ∧
    (CManagerInterface.displayName ⟨7, scriptedSuite⟩ (Frame.filled 'x')
        (World.initial [⟨0, [], "abc".toList, 501⟩])).1
      = Except.ok ("abc".toList ++ List.replicate 498 'x') ∧
    ("abc".toList ++ List.replicate 498 'x').length = 501 ∧
    (CManagerInterface.identifier ⟨7, repointingSuite⟩ (Frame.filled 'x') (World.initial ())).1
      = Except.ok (List.replicate 501 ' ') ∧
    (List.replicate 501 ' ').length = 501 :=
  ⟨rfl, rfl, rfl, rfl, rfl⟩

/-- C7, amended: for every behaviour of the suite entry that leaves the result view's buffer
pointer and capacity as the adapter passed them and sets usedSize no larger than that capacity,
the string a method returns is the copy of `buffer[0..usedSize)`, every byte of it is read inside
the 500-byte local array, and it has at most 500 bytes. -/
theorem result_within_capacity {σ : Type} (k : Method) (self : CManagerInterface σ)
    (frame : Frame) (w : World σ) (s : Str)
    (hbuf : (k.outcome self frame w).out.buffer = ⟨Block.outBuffer, 0⟩)
    (hcap : (k.outcome self frame w).out.capacity = kStringBufferSize)
    (hused : (k.outcome self frame w).out.usedSize ≤ (k.outcome self frame w).out.capacity)
    (hs : (k.run self frame w).1 = Except.ok s) :
    s.length ≤ 500 ∧
    s = (((k.outcome self frame w).out.buffer.span (k.outcome self frame w).out.usedSize).map
          (k.outcome self frame w).store.memory) ∧
    ∀ p ∈ (k.outcome self frame w).out.buffer.span (k.outcome self frame w).out.usedSize,
      p.block = Block.outBuffer ∧ p.offset < 500 := by
  have hle : (k.outcome self frame w).out.usedSize ≤ 500 := by
    rw [hcap] at hused
    exact hused
  have hres : s = Str.fromBuffer (k.outcome self frame w).store.memory
      (k.outcome self frame w).out.buffer (k.outcome self frame w).out.usedSize := by
    rw [run_result] at hs
    by_cases hc : (k.outcome self frame w).code = 0
    · rw [resultOf_ok _ hc] at hs
      exact (Except.ok.inj hs).symm
    · rw [resultOf_error _ hc] at hs
      cases hs
  refine ⟨?_, hres, ?_⟩
  · rw [hres, length_fromBuffer]
    exact hle
  · intro p hp
    have h := mem_span _ _ _ hp
    rw [hbuf] at h
    exact ⟨h.1, by have := h.2.2; simp only [Nat.zero_add] at this; omega⟩

/-- Witness of C7 amended: a plugin that writes "abc" and sets usedSize = 3. -/
theorem result_within_capacity_witness :
    ("abc".toList).length ≤ 500 ∧
    "abc".toList = (((Method.identifier.outcome ⟨7, scriptedSuite⟩ (Frame.filled 'u')
        (World.initial [⟨0, [], "abc".toList, 3⟩])).out.buffer.span
          (Method.identifier.outcome ⟨7, scriptedSuite⟩ (Frame.filled 'u')
            (World.initial [⟨0, [], "abc".toList, 3⟩])).out.usedSize).map
        (Method.identifier.outcome ⟨7, scriptedSuite⟩ (Frame.filled 'u')
          (World.initial [⟨0, [], "abc".toList, 3⟩])).store.memory) ∧
    ∀ p ∈ (Method.identifier.outcome ⟨7, scriptedSuite⟩ (Frame.filled 'u')
        (World.initial [⟨0, [], "abc".toList, 3⟩])).out.buffer.span
          (Method.identifier.outcome ⟨7, scriptedSuite⟩ (Frame.filled 'u')
            (World.initial [⟨0, [], "abc".toList, 3⟩])).out.usedSize,
      p.block = Block.outBuffer ∧ p.offset < 500 :=
  result_within_capacity Method.identifier ⟨7, scriptedSuite⟩ (Frame.filled 'u')
    (World.initial [⟨0, [], "abc".toList, 3⟩]) "abc".toList rfl rfl (by decide) rfl

set_option maxRecDepth 100000 in
/-- C8, refuted as stated: the local arrays are not initialised.  After a first call whose result
was 500 bytes a, a second call in which the entry returns OK and reports 3 bytes without writing
them returns "aaa"; after a first call whose result was 500 bytes b the very same second call
returns "bbb"; and the same call on a freshly constructed adapter whose arrays hold the byte u
returns "uuu".  In all of them the entry of the second call returns the same code, leaves the
same views and writes nothing. -/
theorem second_call_leaks_first_call :
    (CManagerInterface.identifier ⟨7, scriptedSuite⟩
        (Frame.left (afterFirstCall Method.identifier 'a').store.memory)
        (afterFirstCall Method.identifier 'a')).1 = Except.ok "aaa".toList ∧
    (CManagerInterface.identifier ⟨7, scriptedSuite⟩
        (Frame.left (afterFirstCall Method.identifier 'b').store.memory)
        (afterFirstCall Method.identifier 'b')).1 = Except.ok "bbb".toList ∧
    (CManagerInterface.identifier (CManagerInterface.mk 7 scriptedSuite) (Frame.filled 'u')
        (World.initial [⟨0, [], [], 3⟩])).1 = Except.ok "uuu".toList ∧
    (CManagerInterface.displayName ⟨7, scriptedSuite⟩
        (Frame.left (afterFirstCall Method.displayName 'a').store.memory)
        (afterFirstCall Method.displayName 'a')).1 = Except.ok "aaa".toList ∧
    (CManagerInterface.displayName (CManagerInterface.mk 7 scriptedSuite) (Frame.filled 'u')
        (World.initial [⟨0, [], [], 3⟩])).1 = Except.ok "uuu".toList ∧
    (afterFirstCall Method.identifier 'a').store.plugin.map (fun r => (r.code, r.usedSize))
      = [(0, 3)] ∧
    (afterFirstCall Method.identifier 'b').store.plugin.map (fun r => (r.code, r.usedSize))
      = [(0, 3)] :=
  ⟨rfl, rfl, rfl, rfl, rfl, rfl, rfl⟩

/-- C8, amended: take two sequential calls of the same method on one adapter and the same call
on a freshly constructed adapter for the same handle and suite, in any world and with any
contents of the local arrays.  If the entry returns the same code in the second call as in the
fresh call, leaves the view it reports in (the result view when the code is OK, the error-message
view otherwise) over the local array it was given with usedSize at most 500, and the usedSize
bytes it reports there are the same in both, then the second call returns what the fresh call
returns, whatever the first call wrote or returned. -/
theorem second_call_determined_by_reported_bytes {σ : Type} (k : Method)
    (self : CManagerInterface σ) (frame1 frame2 frame : Frame) (w v : World σ)
    (hcode : (k.outcome self frame2 (k.run self frame1 w).2).code
      = (k.outcome (CManagerInterface.mk self.handle_ self.suite_) frame v).code)
    (hout : (k.outcome self frame2 (k.run self frame1 w).2).code = 0 →
      (k.outcome self frame2 (k.run self frame1 w).2).out.buffer = ⟨Block.outBuffer, 0⟩ ∧
      (k.outcome (CManagerInterface.mk self.handle_ self.suite_) frame v).out.buffer
        = ⟨Block.outBuffer, 0⟩ ∧
      (k.outcome self frame2 (k.run self frame1 w).2).out.usedSize ≤ 500 ∧
      (k.outcome self frame2 (k.run self frame1 w).2).out.usedSize
        = (k.outcome (CManagerInterface.mk self.handle_ self.suite_) frame v).out.usedSize ∧
      ∀ i, i < (k.outcome self frame2 (k.run self frame1 w).2).out.usedSize →
        (k.outcome self frame2 (k.run self frame1 w).2).store.memory
            ((k.outcome self frame2 (k.run self frame1 w).2).out.buffer.add i)
          = (k.outcome (CManagerInterface.mk self.handle_ self.suite_) frame v).store.memory
            ((k.outcome (CManagerInterface.mk self.handle_ self.suite_) frame v).out.buffer.add
              i))
    (herr : (k.outcome self frame2 (k.run self frame1 w).2).code ≠ 0 →
      (k.outcome self frame2 (k.run self frame1 w).2).errorMessage.buffer
        = ⟨Block.errorMessageBuffer, 0⟩ ∧
      (k.outcome (CManagerInterface.mk self.handle_ self.suite_) frame v).errorMessage.buffer
        = ⟨Block.errorMessageBuffer, 0⟩ ∧
      (k.outcome self frame2 (k.run self frame1 w).2).errorMessage.usedSize ≤ 500 ∧
      (k.outcome self frame2 (k.run self frame1 w).2).errorMessage.usedSize
        = (k.outcome (CManagerInterface.mk self.handle_ self.suite_) frame
            v).errorMessage.usedSize ∧
      ∀ i, i < (k.outcome self frame2 (k.run self frame1 w).2).errorMessage.usedSize →
        (k.outcome self frame2 (k.run self frame1 w).2).store.memory
            ((k.outcome self frame2 (k.run self frame1 w).2).errorMessage.buffer.add i)
          = (k.outcome (CManagerInterface.mk self.handle_ self.suite_) frame v).store.memory
            ((k.outcome (CManagerInterface.mk self.handle_ self.suite_) frame
              v).errorMessage.buffer.add i)) :
    (k.run self frame2 (k.run self frame1 w).2).1
      = (k.run (CManagerInterface.mk self.handle_ self.suite_) frame v).1 := by
  rw [run_result, run_result]
  by_cases hc : (k.outcome self frame2 (k.run self frame1 w).2).code = 0
  · have hc2 : (k.outcome (CManagerInterface.mk self.handle_ self.suite_) frame v).code = 0 := by
      rw [← hcode]; exact hc
    obtain ⟨_, _, _, hsize, hbytes⟩ := hout hc
    rw [resultOf_ok _ hc, resultOf_ok _ hc2, ← hsize]
    exact congrArg Except.ok (fromBuffer_congr _ _ _ _ _ hbytes)
  · have hc2 : (k.outcome (CManagerInterface.mk self.handle_ self.suite_) frame v).code ≠ 0 := by
      rw [← hcode]; exact hc
    obtain ⟨_, _, _, hsize, hbytes⟩ := herr hc
    rw [resultOf_error _ hc, resultOf_error _ hc2, ← hsize, ← hcode,
      fromBuffer_congr _ _ _ _ _ hbytes]

set_option maxRecDepth 100000 in
/-- Witness of C8 amended: a result of 500 bytes on the first call followed by the 3-byte result
"abc" on the second call, the arrays still holding the bytes of the first call, returns exactly
"abc", which is what a fresh adapter returns when the entry writes "abc". -/
theorem second_call_determined_by_reported_bytes_witness :
    (CManagerInterface.identifier ⟨7, scriptedSuite⟩
      (Frame.left (CManagerInterface.identifier ⟨7, scriptedSuite⟩ (Frame.filled 'u')
        (World.initial [⟨0, [], List.replicate 500 'a', 500⟩,
          ⟨0, [], "abc".toList, 3⟩])).2.store.memory)
      (CManagerInterface.identifier ⟨7, scriptedSuite⟩ (Frame.filled 'u')
        (World.initial [⟨0, [], List.replicate 500 'a', 500⟩, ⟨0, [], "abc".toList, 3⟩])).2).1
      = Except.ok "abc".toList ∧
    (CManagerInterface.identifier ⟨7, scriptedSuite⟩
      (Frame.left (CManagerInterface.identifier ⟨7, scriptedSuite⟩ (Frame.filled 'u')
        (World.initial [⟨0, [], List.replicate 500 'a', 500⟩,
          ⟨0, [], "abc".toList, 3⟩])).2.store.memory)
      (CManagerInterface.identifier ⟨7, scriptedSuite⟩ (Frame.filled 'u')
        (World.initial [⟨0, [], List.replicate 500 'a', 500⟩, ⟨0, [], "abc".toList, 3⟩])).2).1
      = (CManagerInterface.identifier (CManagerInterface.mk 7 scriptedSuite) (Frame.filled 'v')
          (World.initial [⟨0, [], "abc".toList, 3⟩])).1 :=
  ⟨rfl,
   second_call_determined_by_reported_bytes Method.identifier ⟨7, scriptedSuite⟩
    (Frame.filled 'u')
    (Frame.left (CManagerInterface.identifier ⟨7, scriptedSuite⟩ (Frame.filled 'u')
      (World.initial [⟨0, [], List.replicate 500 'a', 500⟩,
        ⟨0, [], "abc".toList, 3⟩])).2.store.memory)
    (Frame.filled 'v')
    (World.initial [⟨0, [], List.replicate 500 'a', 500⟩, ⟨0, [], "abc".toList, 3⟩])
    (World.initial [⟨0, [], "abc".toList, 3⟩])
    rfl
    (fun _ => ⟨rfl, rfl, by decide, rfl, fun i hi => by
      have hi3 : i < 3 := hi
      interval_cases i <;> rfl⟩)
    (fun h => absurd rfl h)⟩

/-! ## Lifetime and the calls made through the function table -/

/-- C5: over the lifetime of an adapter constructed with `handle` (any sequence of calls of
`identifier()` and `displayName()`, then its destruction) the calls made through the function
table are one call of the corresponding string entry per method call followed by one call of
`dtor` with `handle`; the destructor alone records exactly that one `dtor` call and applies the
entry once to the store, every method call records a single call that is not a `dtor` call, and
so `dtor` is called exactly once. -/
theorem dtor_called_exactly_once {σ : Type} (handle : managerAPI_ManagerInterface_h)
    (suite : managerAPI_ManagerInterface_s σ) (uses : List Use) (w : World σ) :
    ((CManagerInterface.mk handle suite).destructor w).trace
      = w.trace ++ [Invocation.dtor handle] ∧
    ((CManagerInterface.mk handle suite).destructor
        ((CManagerInterface.mk handle suite).runAll uses w)).trace
      = w.trace ++ uses.map (fun u => u.method.invocation
          ⟨500, ⟨Block.errorMessageBuffer, 0⟩, 0⟩ ⟨500, ⟨Block.outBuffer, 0⟩, 0⟩ handle)
        ++ [Invocation.dtor handle] ∧
    (uses.map (fun u => u.method.invocation
          ⟨500, ⟨Block.errorMessageBuffer, 0⟩, 0⟩ ⟨500, ⟨Block.outBuffer, 0⟩, 0⟩ handle)
        ++ [Invocation.dtor handle]).countP isDtor = 1 ∧
    ((CManagerInterface.mk handle suite).destructor
        ((CManagerInterface.mk handle suite).runAll uses w)).store
      = suite.dtor handle ((CManagerInterface.mk handle suite).runAll uses w).store ∧
    ∀ (k : Method) (frame : Frame) (v : World σ), ∃ c : Invocation,
      (k.run (CManagerInterface.mk handle suite) frame v).2.trace = v.trace ++ [c] ∧
      isDtor c = false := by
  refine ⟨rfl, ?_, ?_, rfl, fun k frame v => ⟨_, run_trace k _ frame v, isDtor_invocation k _ _ _⟩⟩
  · simp only [CManagerInterface.destructor]
    rw [runAll_trace]
  · rw [List.countP_append]
    have h0 : List.countP isDtor (uses.map (fun u => u.method.invocation
        ⟨500, ⟨Block.errorMessageBuffer, 0⟩, 0⟩ ⟨500, ⟨Block.outBuffer, 0⟩, 0⟩ handle)) = 0 := by
      rw [List.countP_eq_zero]
      intro c hc
      obtain ⟨u, _, rfl⟩ := List.mem_map.1 hc
      simp [isDtor_invocation]
    rw [h0]
    rfl

/-- C10: a call of `identifier()` (resp. `displayName()`) records exactly one call through the
function table, of the entry `identifier` (resp. `displayName`), with the adapter's handle and
with an error-message view and a result view that each have capacity 500 and usedSize 0 and whose
buffers are different storage; the store the call leaves behind is the one that single entry
call returned. -/
theorem method_calls_entry_once {σ : Type} (self : CManagerInterface σ) (frame : Frame)
    (w : World σ) :
    (self.identifier frame w).2.trace = w.trace ++
      [Invocation.identifier ⟨500, ⟨Block.errorMessageBuffer, 0⟩, 0⟩
        ⟨500, ⟨Block.outBuffer, 0⟩, 0⟩ self.handle_] ∧
    (self.displayName frame w).2.trace = w.trace ++
      [Invocation.displayName ⟨500, ⟨Block.errorMessageBuffer, 0⟩, 0⟩
        ⟨500, ⟨Block.outBuffer, 0⟩, 0⟩ self.handle_] ∧
    (self.identifier frame w).2.store
      = (self.suite_.identifier ⟨500, ⟨Block.errorMessageBuffer, 0⟩, 0⟩
          ⟨500, ⟨Block.outBuffer, 0⟩, 0⟩ self.handle_ (w.store.enter frame)).store ∧
    (self.displayName frame w).2.store
      = (self.suite_.displayName ⟨500, ⟨Block.errorMessageBuffer, 0⟩, 0⟩
          ⟨500, ⟨Block.outBuffer, 0⟩, 0⟩ self.handle_ (w.store.enter frame)).store ∧
    (⟨Block.errorMessageBuffer, 0⟩ : Ptr) ≠ ⟨Block.outBuffer, 0⟩ ∧
    ∀ i j : Nat, Ptr.add ⟨Block.errorMessageBuffer, 0⟩ i ≠ Ptr.add ⟨Block.outBuffer, 0⟩ j :=
  ⟨run_trace Method.identifier self frame w, run_trace Method.displayName self frame w,
   run_store Method.identifier self frame w, run_store Method.displayName self frame w,
   by decide, fun i j h => by simp [Ptr.add] at h⟩
